import Mathlib

/-!
Verification of the nengo_spinnaker 2014 firmware components against their
specification.  The C sources are shallowly embedded: 32-bit unsigned machine
words (uint) and the bit patterns of the signed s16.15 fixed-point type accum
(value_t) are modelled as Nat with explicit reduction modulo 2^32 wherever the
hardware would overflow; the fixed-point helpers bitsk / kbits of the vendored
library are pure bit casts between an accum value and its 32-bit pattern, so on
patterns they are the identity.  Stateful C code is modelled by explicit state
passing; array cells are modelled per-word because every access function of the
source touches a single v_ref_voltage[n] word.
-/

namespace NengoSpinnaker

/-- UINT32_MAX of the C sources. -/
def UINT32_MAX : Nat := 4294967295

/-- Reinterpret a 32-bit pattern as the signed two's-complement integer it
encodes (the value bits of an accum, scaled by 2^15). -/
def toSigned (a : Nat) : Int :=
  if a < 2147483648 then (a : Int) else (a : Int) - 4294967296

/-- bitsk of the fixed-point support library: bit pattern of an accum value.
Patterns represent values in this embedding, so it is the identity. -/
def bitsk (a : Nat) : Nat := a

/-- kbits of the fixed-point support library: accum value of a bit pattern. -/
def kbits (a : Nat) : Nat := a

/-- Wrapping 32-bit addition on accum bit patterns (the += of the C sources:
two's-complement addition truncated to 32 bits). -/
def fxAdd (a b : Nat) : Nat := (a + b) % 4294967296

/-- Fixed-point multiplication on accum (s16.15) bit patterns: full signed
product, arithmetic shift right by 15 fractional bits, truncated to 32 bits. -/
def fxMul (a b : Nat) : Nat :=
  (((toSigned a * toSigned b).fdiv 32768) % 4294967296).toNat

/-! ## Ensemble neuron word (spin-nengo-ensemble.h)

v_ref_voltage[n] packs a 4-bit refractory counter (top 4 bits) with a 28-bit
voltage pattern (low 28 bits).  Each access function of the header reads or
writes one such word, so the embedding works on the single word w. -/

/-- neuron_voltage: kbits( v_ref_voltage[n] & 0x0fffffff ). -/
def neuron_voltage (w : Nat) : Nat := kbits (w &&& 0x0fffffff)

/-- set_neuron_voltage: v_ref_voltage[n] =
( v_ref_voltage[n] & 0xf0000000 ) | ( bitsk( v ) & 0x0fffffff ). -/
def set_neuron_voltage (w v : Nat) : Nat :=
  (w &&& 0xf0000000) ||| (bitsk v &&& 0x0fffffff)

/-- neuron_refractory: ( v_ref_voltage[n] & 0xf0000000 ) >> 28. -/
def neuron_refractory (w : Nat) : Nat := (w &&& 0xf0000000) >>> 28

/-- set_neuron_refractory: v_ref_voltage[n] = t_ref.  The previous word w is
overwritten wholesale.  t_ref is the configured refractory period; per the
region-1 documentation of ensemble-data.h (and the harness diagnostic that
prints t_ref with a steps unit) it is a plain count of timesteps. -/
def set_neuron_refractory (t_ref w : Nat) : Nat := t_ref

/-- decrement_neuron_refractory: v_ref_voltage[n] -= 0x10000000 (32-bit
unsigned wrap-around subtraction). -/
def decrement_neuron_refractory (w : Nat) : Nat :=
  (w + 4294967296 - 0x10000000) % 4294967296

/-! ## Filter component (filter_main.c)

g_filter : filter_parameters_t holds the configuration loaded from region 1
(sizes, timestep, transmission delay, inter-packet pause) together with the
output key table (region 2) and the flat row-major transform matrix
(region 5).  Arrays are modelled as index functions over accum bit patterns
and uints. -/

structure filter_parameters_t where
  size_in : Nat
  size_out : Nat
  machine_timestep : Nat
  transmission_delay : Nat
  interpacket_pause : Nat
  transform : Nat → Nat
  keys : Nat → Nat

/-- The inner accumulation of filter_update: g_filter.output[j] = 0; then for
k below size_in, output[j] += transform[j*size_in + k] * input[k], in accum
arithmetic on bit patterns. -/
def filter_output (p : filter_parameters_t) (input : Nat → Nat) (j : Nat) :
    Nat :=
  (List.range p.size_in).foldl
    (fun acc k => fxAdd acc (fxMul (p.transform (j * p.size_in + k)) (input k)))
    0

/-- Observable effects of one filter_update invocation.  exit_called records
whether spin1_exit(0) was requested (the spin1 kernel then stops the timer
loop after the callback returns; the callback body itself runs to the end).
packets is the ordered list of (key, payload) multicast packets sent. -/
structure FilterUpdateResult where
  exit_called : Bool
  output : List Nat
  packets : List (Nat × Nat)
  delay_remaining : Nat

/-- filter_update(ticks, arg1): checks the simulation-tick limit, steps the
input filter (whose resulting filtered vector is the parameter input),
recomputes the output vector as a dense matrix-vector product, then performs
the uint decrement delay_remaining-- and, when the counter reaches zero,
resets it to transmission_delay and sends one packet (keys[d], bitsk
output[d]) per output dimension.  The single source-level branch on the
counter is rendered per result field (same condition in both fields). -/
def filter_update (p : filter_parameters_t) (simulation_ticks ticks : Nat)
    (input : Nat → Nat) (delay_remaining : Nat) : FilterUpdateResult :=
  let exitc : Bool := decide (simulation_ticks ≠ UINT32_MAX ∧ simulation_ticks ≤ ticks)
  let out : List Nat := (List.range p.size_out).map (filter_output p input)
  let d : Nat := (delay_remaining + 4294967296 - 1) % 4294967296
  { exit_called := exitc
    output := out
    packets :=
      if d = 0 then
        (List.range p.size_out).map (fun i => (p.keys i, bitsk (out.getD i 0)))
      else []
    delay_remaining := if d = 0 then p.transmission_delay else d }

/-- data_system (filter): reads the five region-1 words into g_filter and
initialises the global delay_remaining to the transmission delay; it fails
exactly when input_filter_initialise returns NULL. -/
structure FilterSystemData where
  size_in : Nat
  size_out : Nat
  machine_timestep : Nat
  transmission_delay : Nat
  interpacket_pause : Nat
  delay_remaining : Nat
  ok : Bool

def data_system (addr : Nat → Nat) (input_filter_initialise_ok : Bool) :
    FilterSystemData :=
  { size_in := addr 0
    size_out := addr 1
    machine_timestep := addr 2
    transmission_delay := addr 3
    interpacket_pause := addr 4
    delay_remaining := addr 3
    ok := input_filter_initialise_ok }

/-- delay_remaining after t timer ticks, starting from the value
transmission_delay that data_system assigns at load; tick t is the t-th
invocation of filter_update (inputs t is that tick's filtered input
vector). -/
def delay_state (p : filter_parameters_t) (simt : Nat)
    (inputs : Nat → Nat → Nat) (t : Nat) : Nat :=
  Nat.rec p.transmission_delay
    (fun t ih => (filter_update p simt (t + 1) (inputs (t + 1)) ih).delay_remaining)
    t

/-- The multicast packets emitted by the filter_update invocation of tick t
(t counted from 1). -/
def packets_at (p : filter_parameters_t) (simt : Nat)
    (inputs : Nat → Nat → Nat) (t : Nat) : List (Nat × Nat) :=
  (filter_update p simt t (inputs t) (delay_state p simt inputs (t - 1))).packets

/-- The output vector computed by the filter_update invocation of tick t. -/
def outputs_at (p : filter_parameters_t) (simt : Nat)
    (inputs : Nat → Nat → Nat) (t : Nat) : List Nat :=
  (filter_update p simt t (inputs t) (delay_state p simt inputs (t - 1))).output

/-! ## Boot sequences

The c_main functions are branching-and-logging code over the success of the
individual region loaders; the embedding maps an environment of loader
results to the observable boot trace (ordered list of region numbers whose
loader or copy ran, whether the failure diagnostic was printed, and whether
the callbacks / timer / spin1_start were reached). -/

structure FilterLoaders where
  data_system : Bool
  data_get_output_keys : Bool
  input_filter_get_filters : Bool
  input_filter_get_filter_routes : Bool
  data_get_transform : Bool

structure FilterBootTrace where
  regions_called : List Nat
  failure_logged : Bool
  callbacks_registered : Bool
  timer_set : Bool
  started : Bool

/-- c_main of filter_main.c: the five loads are one short-circuiting
disjunction of negated loader results; on failure it logs and returns, and
only on success sets the timer tick, registers the MCPL and TIMER callbacks
and calls spin1_start(SYNC_WAIT). -/
def filter_c_main (L : FilterLoaders) : FilterBootTrace :=
  if !L.data_system then
    { regions_called := [1], failure_logged := true,
      callbacks_registered := false, timer_set := false, started := false }
  else if !L.data_get_output_keys then
    { regions_called := [1, 2], failure_logged := true,
      callbacks_registered := false, timer_set := false, started := false }
  else if !L.input_filter_get_filters then
    { regions_called := [1, 2, 3], failure_logged := true,
      callbacks_registered := false, timer_set := false, started := false }
  else if !L.input_filter_get_filter_routes then
    { regions_called := [1, 2, 3, 4], failure_logged := true,
      callbacks_registered := false, timer_set := false, started := false }
  else if !L.data_get_transform then
    { regions_called := [1, 2, 3, 4, 5], failure_logged := true,
      callbacks_registered := false, timer_set := false, started := false }
  else
    { regions_called := [1, 2, 3, 4, 5], failure_logged := false,
      callbacks_registered := true, timer_set := true, started := true }

/-- Loader results for the ensemble boot.  The four loaders of regions 2-5
return bool in their declarations (ensemble-data.h) but c_main of the
ensemble calls them without inspecting the result. -/
structure EnsembleLoaders where
  data_system : Bool
  data_get_bias : Bool
  data_get_encoders : Bool
  data_get_decoders : Bool
  data_get_keys : Bool
  inhib_gain_malloc : Bool
  get_filters_6 : Bool
  get_filter_routes_7 : Bool
  get_filters_8 : Bool
  get_filter_routes_9 : Bool
  get_filters_11 : Bool
  get_filter_routes_12 : Bool
  get_pes : Bool
  record_buffer_initialise : Bool

structure EnsembleBootTrace where
  regions_called : List Nat
  failure_logged : Bool
  timer_set : Bool
  started : Bool

/-- c_main of the ensemble component: region 1 is checked; the loaders of
regions 2-5 run unconditionally with their results discarded; then the
inhibitory-gain malloc (for the region-10 copy), the three filter/route
pairs (6/7, 8/9, 11/12, short-circuiting), the PES load (13) and the
recording-buffer initialisation (15) are each checked, and only if all the
checked steps succeed are the timer period set and spin1_start reached. -/
def ensemble_c_main (L : EnsembleLoaders) : EnsembleBootTrace :=
  if !L.data_system then
    { regions_called := [1], failure_logged := true,
      timer_set := false, started := false }
  else if !L.inhib_gain_malloc then
    { regions_called := [1, 2, 3, 4, 5], failure_logged := true,
      timer_set := false, started := false }
  else if !L.get_filters_6 then
    { regions_called := [1, 2, 3, 4, 5, 10, 6], failure_logged := true,
      timer_set := false, started := false }
  else if !L.get_filter_routes_7 then
    { regions_called := [1, 2, 3, 4, 5, 10, 6, 7], failure_logged := true,
      timer_set := false, started := false }
  else if !L.get_filters_8 then
    { regions_called := [1, 2, 3, 4, 5, 10, 6, 7, 8], failure_logged := true,
      timer_set := false, started := false }
  else if !L.get_filter_routes_9 then
    { regions_called := [1, 2, 3, 4, 5, 10, 6, 7, 8, 9], failure_logged := true,
      timer_set := false, started := false }
  else if !L.get_filters_11 then
    { regions_called := [1, 2, 3, 4, 5, 10, 6, 7, 8, 9, 11], failure_logged := true,
      timer_set := false, started := false }
  else if !L.get_filter_routes_12 then
    { regions_called := [1, 2, 3, 4, 5, 10, 6, 7, 8, 9, 11, 12], failure_logged := true,
      timer_set := false, started := false }
  else if !L.get_pes then
    { regions_called := [1, 2, 3, 4, 5, 10, 6, 7, 8, 9, 11, 12, 13], failure_logged := true,
      timer_set := false, started := false }
  else if !L.record_buffer_initialise then
    { regions_called := [1, 2, 3, 4, 5, 10, 6, 7, 8, 9, 11, 12, 13, 15], failure_logged := true,
      timer_set := false, started := false }
  else
    { regions_called := [1, 2, 3, 4, 5, 10, 6, 7, 8, 9, 11, 12, 13, 15], failure_logged := false,
      timer_set := true, started := true }

/-! Mask arithmetic helper lemmas. -/

lemma low_mask_eq_mod (w : Nat) : w &&& 0x0fffffff = w % 268435456 := by
  have h : (0x0fffffff : Nat) = 2 ^ 28 - 1 := by norm_num
  rw [h, Nat.and_pow_two_sub_one_eq_mod]

lemma neuron_voltage_eq_mod (w : Nat) : neuron_voltage w = w % 268435456 := by
  rw [neuron_voltage, kbits, low_mask_eq_mod]

lemma neuron_refractory_eq_div (w : Nat) :
    neuron_refractory w = w / 268435456 % 16 := by
  rw [neuron_refractory]
  apply Nat.eq_of_testBit_eq
  intro j
  rw [Nat.testBit_shiftRight, Nat.testBit_and]
  have hm : (0xf0000000 : Nat) = 15 <<< 28 := by
    norm_num [Nat.shiftLeft_eq]
  rw [hm, Nat.testBit_shiftLeft]
  have h16 : (16 : Nat) = 2 ^ 4 := by norm_num
  have h28 : (268435456 : Nat) = 2 ^ 28 := by norm_num
  rw [h16, Nat.testBit_mod_two_pow]
  have hdiv : w / 268435456 = w >>> 28 := by
    rw [Nat.shiftRight_eq_div_pow, h28]
  rw [hdiv, Nat.testBit_shiftRight]
  have h15 : (15 : Nat) = 2 ^ 4 - 1 := by norm_num
  rw [h15, Nat.testBit_two_pow_sub_one]
  simp [Nat.add_sub_cancel_left, Bool.and_comm]

/-! Projection lemmas for filter_update. -/

lemma filter_update_exit (p : filter_parameters_t) (simt ticks : Nat)
    (input : Nat → Nat) (r : Nat) :
    (filter_update p simt ticks input r).exit_called =
      decide (simt ≠ UINT32_MAX ∧ simt ≤ ticks) := rfl

lemma filter_update_output (p : filter_parameters_t) (simt ticks : Nat)
    (input : Nat → Nat) (r : Nat) :
    (filter_update p simt ticks input r).output =
      (List.range p.size_out).map (filter_output p input) := rfl

lemma filter_update_delay (p : filter_parameters_t) (simt ticks : Nat)
    (input : Nat → Nat) (r : Nat) :
    (filter_update p simt ticks input r).delay_remaining =
      if (r + 4294967296 - 1) % 4294967296 = 0 then p.transmission_delay
      else (r + 4294967296 - 1) % 4294967296 := by
  simp only [filter_update]

lemma filter_update_packets (p : filter_parameters_t) (simt ticks : Nat)
    (input : Nat → Nat) (r : Nat) :
    (filter_update p simt ticks input r).packets =
      if (r + 4294967296 - 1) % 4294967296 = 0 then
        (List.range p.size_out).map
          (fun i => (p.keys i,
            bitsk (((List.range p.size_out).map (filter_output p input)).getD i 0)))
      else [] := by
  simp only [filter_update]

lemma delay_state_zero (p : filter_parameters_t) (simt : Nat)
    (inputs : Nat → Nat → Nat) :
    delay_state p simt inputs 0 = p.transmission_delay := rfl

lemma delay_state_succ (p : filter_parameters_t) (simt : Nat)
    (inputs : Nat → Nat → Nat) (t : Nat) :
    delay_state p simt inputs (t + 1) =
      (filter_update p simt (t + 1) (inputs (t + 1))
        (delay_state p simt inputs t)).delay_remaining := rfl

/-! Modular arithmetic helpers for the delay counter. -/

lemma succ_mod_eq_zero (N t : Nat) (hN : 1 ≤ N) (h : t % N = N - 1) :
    (t + 1) % N = 0 := by
  have hd := Nat.div_add_mod t N
  have ht : t + 1 = N * (t / N + 1) := by
    rw [Nat.mul_add, Nat.mul_one]
    omega
  rw [ht, Nat.mul_mod_right]

lemma succ_mod_of_lt (N t : Nat) (h : t % N + 1 < N) :
    (t + 1) % N = t % N + 1 := by
  conv_lhs => rw [← Nat.div_add_mod t N]
  rw [Nat.add_assoc, Nat.mul_add_mod]
  exact Nat.mod_eq_of_lt h

/-- Closed form of the transmission-delay counter: after t ticks it holds
N - t % N, where N is the configured transmission delay. -/
lemma delay_state_closed (p : filter_parameters_t) (simt : Nat)
    (inputs : Nat → Nat → Nat) (hN : 1 ≤ p.transmission_delay)
    (hN2 : p.transmission_delay < 4294967296) :
    ∀ t, delay_state p simt inputs t =
      p.transmission_delay - t % p.transmission_delay := by
  intro t
  induction t with
  | zero => simp [delay_state_zero]
  | succ t ih =>
    have hmod : t % p.transmission_delay < p.transmission_delay :=
      Nat.mod_lt _ (by omega)
    have hs1 : 1 ≤ p.transmission_delay - t % p.transmission_delay := by omega
    have hs2 : p.transmission_delay - t % p.transmission_delay ≤ p.transmission_delay := by
      omega
    rw [delay_state_succ, ih, filter_update_delay]
    have hd : (p.transmission_delay - t % p.transmission_delay + 4294967296 - 1) %
        4294967296 = p.transmission_delay - t % p.transmission_delay - 1 := by
      omega
    rw [hd]
    by_cases hc : p.transmission_delay - t % p.transmission_delay - 1 = 0
    · have h1 : t % p.transmission_delay = p.transmission_delay - 1 := by omega
      have h2 : (t + 1) % p.transmission_delay = 0 :=
        succ_mod_eq_zero _ _ hN h1
      rw [if_pos hc, h2]
      omega
    · have h2 : (t + 1) % p.transmission_delay = t % p.transmission_delay + 1 :=
        succ_mod_of_lt _ _ (by omega)
      rw [if_neg hc, h2]
      omega

/-! Helpers for the matrix-vector product. -/

lemma foldl_fxAdd_eq (f : Nat → Nat) (l : List Nat) (a : Nat)
    (ha : a < 4294967296) :
    l.foldl (fun acc k => fxAdd acc (f k)) a = (a + (l.map f).sum) % 4294967296 := by
  induction l generalizing a with
  | nil => simpa using (Nat.mod_eq_of_lt ha).symm
  | cons x xs ih =>
    simp only [List.foldl_cons, List.map_cons, List.sum_cons]
    rw [ih (fxAdd a (f x)) (Nat.mod_lt _ (by norm_num))]
    show ((a + f x) % 4294967296 + (xs.map f).sum) % 4294967296 = _
    rw [Nat.mod_add_mod, Nat.add_assoc]

/-- The accumulation loop of filter_update equals the wrapped sum of the
fixed-point products of row j of the transform with the input vector. -/
lemma filter_output_eq_sum (p : filter_parameters_t) (input : Nat → Nat)
    (j : Nat) :
    filter_output p input j =
      ((List.range p.size_in).map
        (fun k => fxMul (p.transform (j * p.size_in + k)) (input k))).sum %
        4294967296 := by
  rw [filter_output]
  rw [foldl_fxAdd_eq (fun k => fxMul (p.transform (j * p.size_in + k)) (input k))
    (List.range p.size_in) 0 (by norm_num)]
  simp

lemma getD_map_range (f : Nat → Nat) (n j : Nat) (h : j < n) :
    ((List.range n).map f).getD j 0 = f j := by
  rw [List.getD_eq_getElem _ _ (by simpa using h)]
  simp

/-! ## Claim theorems -/

/-- C6: the claim states that set_neuron_refractory leaves the packed word
with neuron_refractory equal to the configured t_ref and neuron_voltage
equal to the zero reset voltage.  The code instead stores the plain t_ref
step count into the whole word, so for t_ref = 2 (and any previous word,
here 0x50000123) the read-back refractory counter is 0, not 2, and the
read-back voltage pattern is 2, not 0.  This evaluates the code at that
failing input. -/
theorem C6_set_refractory_code_eval :
    neuron_refractory (set_neuron_refractory 2 1342177571) = 0 ∧
    neuron_voltage (set_neuron_refractory 2 1342177571) = 2 := by decide

/-- C7: for any packed word w (32 bits) whose refractory counter is at least
k, k calls of decrement_neuron_refractory lower the counter by exactly k
(one unit per call) and leave the low 28 voltage bits untouched; taking
k = the initial counter, the counter reaches zero after exactly that many
steps and not before. -/
theorem C7_refractory_countdown :
    ∀ (k w : Nat), w < 4294967296 → k ≤ neuron_refractory w →
      neuron_refractory (decrement_neuron_refractory^[k] w) =
        neuron_refractory w - k ∧
      neuron_voltage (decrement_neuron_refractory^[k] w) = neuron_voltage w := by
  intro k
  induction k with
  | zero => intro w hw hk; simp
  | succ k ih =>
    intro w hw hk
    have hr := neuron_refractory_eq_div w
    have hrdec := neuron_refractory_eq_div (w - 268435456)
    have hdivlt : w / 268435456 < 16 := by omega
    have h1 : 1 ≤ neuron_refractory w :=
      le_trans (Nat.succ_le_succ (Nat.zero_le k)) hk
    have hw28 : 268435456 ≤ w := by omega
    have hdec : decrement_neuron_refractory w = w - 268435456 := by
      rw [decrement_neuron_refractory]
      omega
    rw [Function.iterate_succ_apply, hdec]
    have hw2 : w - 268435456 < 4294967296 := by omega
    have hk2 : k ≤ neuron_refractory (w - 268435456) := by
      rw [hrdec]
      omega
    obtain ⟨ha, hb⟩ := ih (w - 268435456) hw2 hk2
    refine ⟨?_, ?_⟩
    · rw [ha, hrdec, hr]
      omega
    · rw [hb, neuron_voltage_eq_mod, neuron_voltage_eq_mod]
      omega

/-- Witness for C7 at the concrete word 0x30000005 (counter 3, voltage
pattern 5) with k = 3: the counter reaches 0 and the voltage bits stay 5. -/
theorem C7_refractory_countdown_witness :
    neuron_refractory (decrement_neuron_refractory^[3] 805306373) = 0 ∧
    neuron_voltage (decrement_neuron_refractory^[3] 805306373) = 5 := by
  have h := C7_refractory_countdown 3 805306373 (by decide) (by decide)
  exact ⟨h.1.trans (by decide), h.2.trans (by decide)⟩

/-- C9: set_neuron_voltage leaves the top-4-bit refractory counter unchanged,
makes neuron_voltage return the low 28 bits of bitsk v, and round-trips
exactly whenever the bit pattern of v fits in 28 bits. -/
theorem C9_set_voltage_frame :
    ∀ w v : Nat,
      neuron_refractory (set_neuron_voltage w v) = neuron_refractory w ∧
      neuron_voltage (set_neuron_voltage w v) = bitsk v % 268435456 ∧
      (bitsk v < 268435456 → neuron_voltage (set_neuron_voltage w v) = v) := by
  intro w v
  have hH : set_neuron_voltage w v &&& 0xf0000000 = w &&& 0xf0000000 := by
    rw [set_neuron_voltage, bitsk, Nat.and_distrib_right,
      Nat.and_assoc, Nat.and_assoc]
    have h1 : (0xf0000000 : Nat) &&& 0xf0000000 = 0xf0000000 := by decide
    have h2 : (0x0fffffff : Nat) &&& 0xf0000000 = 0 := by decide
    rw [h1, h2, Nat.and_zero, Nat.or_zero]
  have hL : set_neuron_voltage w v &&& 0x0fffffff = v &&& 0x0fffffff := by
    rw [set_neuron_voltage, bitsk, Nat.and_distrib_right,
      Nat.and_assoc, Nat.and_assoc]
    have h1 : (0xf0000000 : Nat) &&& 0x0fffffff = 0 := by decide
    have h2 : (0x0fffffff : Nat) &&& 0x0fffffff = 0x0fffffff := by decide
    rw [h1, h2, Nat.and_zero, Nat.zero_or]
  refine ⟨?_, ?_, ?_⟩
  · rw [neuron_refractory, neuron_refractory, hH]
  · rw [neuron_voltage, kbits, hL, low_mask_eq_mod, bitsk]
  · intro hfit
    rw [neuron_voltage, kbits, hL, low_mask_eq_mod]
    rw [bitsk] at hfit
    exact Nat.mod_eq_of_lt hfit

/-- Witness for C9 at w = 0x30000005, v = 7: counter stays 3 and the
voltage round-trips. -/
theorem C9_set_voltage_frame_witness :
    neuron_refractory (set_neuron_voltage 805306373 7) =
      neuron_refractory 805306373 ∧
    neuron_voltage (set_neuron_voltage 805306373 7) = 7 := by
  have h := C9_set_voltage_frame 805306373 7
  exact ⟨h.1, h.2.2 (by decide)⟩

/-- C10: with the configured total tick count equal to UINT32_MAX the filter
treats the run as infinite: no filter_update invocation ever requests
spin1_exit, whatever the tick number, input and counter state. -/
theorem C10_uint32max_never_exits :
    ∀ (p : filter_parameters_t) (ticks : Nat) (input : Nat → Nat) (r : Nat),
      (filter_update p UINT32_MAX ticks input r).exit_called = false := by
  intro p ticks input r
  rw [filter_update_exit]
  simp

/-- C2: every filter_update invocation sets output[j], for each output
dimension j below size_out, to the fixed-point (wrapped 32-bit) sum over k
of transform[j*size_in + k] * input[k] — the dense matrix-vector product of
the configured transform with the current filtered input. -/
theorem C2_transform_matvec :
    ∀ (p : filter_parameters_t) (simt ticks : Nat) (input : Nat → Nat)
      (r j : Nat), j < p.size_out →
      (filter_update p simt ticks input r).output.getD j 0 =
        ((List.range p.size_in).map
          (fun k => fxMul (p.transform (j * p.size_in + k)) (input k))).sum %
          4294967296 := by
  intro p simt ticks input r j hj
  rw [filter_update_output, getD_map_range _ _ _ hj, filter_output_eq_sum]

/-- Witness for C2 at the spec example: T = [1, -1], x = [3, 1] in s16.15
patterns gives output 2.0 (pattern 65536). -/
theorem C2_transform_matvec_witness :
    (filter_update
      (⟨2, 1, 1000, 1, 0,
        (fun i => if i = 0 then 32768 else 4294934528),
        (fun i => 100 + i)⟩ : filter_parameters_t) 4294967295 1
      (fun k => if k = 0 then 98304 else 32768) 1).output.getD 0 0 = 65536 := by
  have h := C2_transform_matvec
    (⟨2, 1, 1000, 1, 0,
      (fun i => if i = 0 then 32768 else 4294934528),
      (fun i => 100 + i)⟩ : filter_parameters_t) 4294967295 1
    (fun k => if k = 0 then 98304 else 32768) 1 0 (by decide)
  rw [h]
  decide

/-- C3: with transmission delay N at least 1 (delay_remaining initialised to
N by data_system), the filter_update of tick t emits one multicast packet
per output dimension, in dimension order with key keys[d] and payload
bitsk(output[d]), exactly when t is a multiple of N, and emits nothing on
the other ticks, for every input sequence. -/
theorem C3_transmission_delay_gating :
    ∀ (p : filter_parameters_t) (simt : Nat) (inputs : Nat → Nat → Nat)
      (N t : Nat), p.transmission_delay = N → 1 ≤ N → N < 4294967296 →
      1 ≤ t →
      packets_at p simt inputs t =
        if t % N = 0 then
          (List.range p.size_out).map
            (fun i => (p.keys i, bitsk ((outputs_at p simt inputs t).getD i 0)))
        else [] := by
  intro p simt inputs N t hpN hN1 hN2 ht
  subst hpN
  obtain ⟨u, rfl⟩ : ∃ u, t = u + 1 := ⟨t - 1, by omega⟩
  have hmod : u % p.transmission_delay < p.transmission_delay :=
    Nat.mod_lt _ (by omega)
  rw [packets_at, outputs_at, Nat.add_sub_cancel,
    delay_state_closed p simt inputs hN1 hN2 u, filter_update_packets,
    filter_update_output]
  have hd : (p.transmission_delay - u % p.transmission_delay + 4294967296 - 1) %
      4294967296 = p.transmission_delay - u % p.transmission_delay - 1 := by
    omega
  rw [hd]
  by_cases hc : u % p.transmission_delay = p.transmission_delay - 1
  · have h0 : (u + 1) % p.transmission_delay = 0 :=
      succ_mod_eq_zero _ _ hN1 hc
    rw [if_pos (by omega), if_pos h0]
  · have hsuc : (u + 1) % p.transmission_delay = u % p.transmission_delay + 1 :=
      succ_mod_of_lt _ _ (by omega)
    have hne : (u + 1) % p.transmission_delay ≠ 0 := by
      rw [hsuc]
      exact Nat.succ_ne_zero _
    rw [if_neg (by omega), if_neg hne]

/-- Witness for C3 with N = 2, one output dimension, zero transform: tick 1
emits nothing and tick 2 emits the single packet (key 100, payload 0). -/
theorem C3_transmission_delay_gating_witness :
    packets_at
      (⟨1, 1, 1000, 2, 0, (fun _ => 0), (fun i => 100 + i)⟩ : filter_parameters_t)
      4294967295 (fun _ _ => 0) 1 = [] ∧
    packets_at
      (⟨1, 1, 1000, 2, 0, (fun _ => 0), (fun i => 100 + i)⟩ : filter_parameters_t)
      4294967295 (fun _ _ => 0) 2 = [(100, 0)] := by
  have h1 := C3_transmission_delay_gating
    (⟨1, 1, 1000, 2, 0, (fun _ => 0), (fun i => 100 + i)⟩ : filter_parameters_t)
    4294967295 (fun _ _ => 0) 2 1 rfl (by decide) (by decide) (by decide)
  have h2 := C3_transmission_delay_gating
    (⟨1, 1, 1000, 2, 0, (fun _ => 0), (fun i => 100 + i)⟩ : filter_parameters_t)
    4294967295 (fun _ _ => 0) 2 2 rfl (by decide) (by decide) (by decide)
  refine ⟨h1.trans (by decide), h2.trans ?_⟩
  rw [if_pos (by decide)]
  decide

/-- C4: with a finite configured tick count S (not the UINT32_MAX sentinel),
a filter_update invocation requests the halt exactly when its tick number
reaches S — never for tick numbers below S — while still performing the full
update (the recomputed matrix-vector output) on every invocation including
tick S itself; over the run driven from the loaded delay counter, S is the
least tick (at least 1) whose invocation requests the halt. -/
theorem C4_finite_tick_halt :
    ∀ (p : filter_parameters_t) (S : Nat) (input : Nat → Nat)
      (inputs : Nat → Nat → Nat) (r ticks : Nat),
      S ≠ UINT32_MAX → 1 ≤ S →
      ((filter_update p S ticks input r).exit_called = decide (S ≤ ticks)) ∧
      ((filter_update p S ticks input r).output =
        (List.range p.size_out).map (filter_output p input)) ∧
      IsLeast {t : Nat | 1 ≤ t ∧
        (filter_update p S t (inputs t)
          (delay_state p S inputs (t - 1))).exit_called = true} S := by
  intro p S input inputs r ticks hS hS1
  refine ⟨?_, filter_update_output p S ticks input r, ⟨⟨hS1, ?_⟩, ?_⟩⟩
  · rw [filter_update_exit]
    simp [hS]
  · rw [filter_update_exit]
    simp [hS]
  · intro t ht
    obtain ⟨ht1, ht2⟩ := ht
    rw [filter_update_exit] at ht2
    simp [hS] at ht2
    exact ht2

/-- Witness for C4 with S = 3: tick 2 does not request the halt, tick 3
does. -/
theorem C4_finite_tick_halt_witness :
    (filter_update
      (⟨1, 1, 1000, 1, 0, (fun _ => 0), (fun _ => 0)⟩ : filter_parameters_t)
      3 2 (fun _ => 0) 5).exit_called = false ∧
    (filter_update
      (⟨1, 1, 1000, 1, 0, (fun _ => 0), (fun _ => 0)⟩ : filter_parameters_t)
      3 3 (fun _ => 0) 5).exit_called = true := by
  have h2 := C4_finite_tick_halt
    (⟨1, 1, 1000, 1, 0, (fun _ => 0), (fun _ => 0)⟩ : filter_parameters_t)
    3 (fun _ => 0) (fun _ _ => 0) 5 2 (by decide) (by decide)
  have h3 := C4_finite_tick_halt
    (⟨1, 1, 1000, 1, 0, (fun _ => 0), (fun _ => 0)⟩ : filter_parameters_t)
    3 (fun _ => 0) (fun _ _ => 0) 5 3 (by decide) (by decide)
  exact ⟨h2.1.trans (by decide), h3.1.trans (by decide)⟩

/-- C8: if the configured transmission delay D is at least 1 and the counter
lies in [1, D] before a filter_update call (as established by data_system,
which initialises it to D), then it lies in [1, D] after the call; if D = 0,
the very first filter_update wraps the unsigned decrement of 0 to 2^32 - 1
and transmits no packet on that tick. -/
theorem C8_delay_counter_invariant :
    ∀ (p : filter_parameters_t) (simt ticks : Nat) (input : Nat → Nat)
      (inputs : Nat → Nat → Nat) (r : Nat),
      (1 ≤ p.transmission_delay → p.transmission_delay < 4294967296 →
        1 ≤ r → r ≤ p.transmission_delay →
        1 ≤ (filter_update p simt ticks input r).delay_remaining ∧
        (filter_update p simt ticks input r).delay_remaining ≤
          p.transmission_delay) ∧
      (p.transmission_delay = 0 →
        delay_state p simt inputs 1 = 4294967295 ∧
        packets_at p simt inputs 1 = []) := by
  intro p simt ticks input inputs r
  constructor
  · intro h1 h2 h3 h4
    rw [filter_update_delay]
    by_cases hc : (r + 4294967296 - 1) % 4294967296 = 0
    · rw [if_pos hc]
      exact ⟨h1, le_refl _⟩
    · rw [if_neg hc]
      omega
  · intro h0
    constructor
    · show delay_state p simt inputs (0 + 1) = 4294967295
      rw [delay_state_succ, delay_state_zero, filter_update_delay, h0]
      rw [if_neg (by decide)]
    · show packets_at p simt inputs 1 = []
      rw [packets_at]
      simp only [Nat.sub_self]
      rw [delay_state_zero, filter_update_packets, h0]
      rw [if_neg (by decide)]

/-- Witness for C8: with D = 3 and counter 3 the post-call counter stays in
[1, 3]; with D = 0 the first tick wraps the counter to 4294967295 and sends
nothing. -/
theorem C8_delay_counter_invariant_witness :
    (1 ≤ (filter_update
        (⟨1, 1, 1000, 3, 0, (fun _ => 0), (fun _ => 0)⟩ : filter_parameters_t)
        0 1 (fun _ => 0) 3).delay_remaining ∧
      (filter_update
        (⟨1, 1, 1000, 3, 0, (fun _ => 0), (fun _ => 0)⟩ : filter_parameters_t)
        0 1 (fun _ => 0) 3).delay_remaining ≤ 3) ∧
    (delay_state
        (⟨1, 1, 1000, 0, 0, (fun _ => 0), (fun _ => 0)⟩ : filter_parameters_t)
        0 (fun _ _ => 0) 1 = 4294967295 ∧
      packets_at
        (⟨1, 1, 1000, 0, 0, (fun _ => 0), (fun _ => 0)⟩ : filter_parameters_t)
        0 (fun _ _ => 0) 1 = []) := by
  have hA := (C8_delay_counter_invariant
    (⟨1, 1, 1000, 3, 0, (fun _ => 0), (fun _ => 0)⟩ : filter_parameters_t)
    0 1 (fun _ => 0) (fun _ _ => 0) 3).1
    (by decide) (by decide) (by decide) (by decide)
  have hB := (C8_delay_counter_invariant
    (⟨1, 1, 1000, 0, 0, (fun _ => 0), (fun _ => 0)⟩ : filter_parameters_t)
    0 1 (fun _ => 0) (fun _ _ => 0) 3).2 (by decide)
  exact ⟨hA, hB⟩

/-- C5: the filter boot loads sub-regions 1 through 5 in order, stopping at
the first loader that fails; spin1_start, the timer period and the two
callbacks are reached exactly when all five loads succeed, and any failure
logs the diagnostic and leaves the callbacks unregistered (so the component
can never transmit). -/
theorem C5_filter_boot_shortcircuit :
    ∀ L : FilterLoaders,
      ((filter_c_main L).started =
        (L.data_system && L.data_get_output_keys && L.input_filter_get_filters &&
         L.input_filter_get_filter_routes && L.data_get_transform)) ∧
      ((filter_c_main L).callbacks_registered = (filter_c_main L).started) ∧
      ((filter_c_main L).timer_set = (filter_c_main L).started) ∧
      ((filter_c_main L).failure_logged = !(filter_c_main L).started) ∧
      (L.data_system = false → (filter_c_main L).regions_called = [1]) ∧
      (L.data_system = true → L.data_get_output_keys = false →
        (filter_c_main L).regions_called = [1, 2]) ∧
      (L.data_system = true → L.data_get_output_keys = true →
        L.input_filter_get_filters = false →
        (filter_c_main L).regions_called = [1, 2, 3]) ∧
      (L.data_system = true → L.data_get_output_keys = true →
        L.input_filter_get_filters = true →
        L.input_filter_get_filter_routes = false →
        (filter_c_main L).regions_called = [1, 2, 3, 4]) ∧
      (L.data_system = true → L.data_get_output_keys = true →
        L.input_filter_get_filters = true →
        L.input_filter_get_filter_routes = true →
        L.data_get_transform = false →
        (filter_c_main L).regions_called = [1, 2, 3, 4, 5]) := by
  intro L
  obtain ⟨a, b, c, d, e⟩ := L
  cases a <;> cases b <;> cases c <;> cases d <;> cases e <;>
    simp [filter_c_main]

/-- Witness for C5: with the region-2 loader failing, only regions 1 and 2
ran and the component never started. -/
theorem C5_filter_boot_shortcircuit_witness :
    (filter_c_main ⟨true, false, true, true, true⟩).regions_called = [1, 2] ∧
    (filter_c_main ⟨true, false, true, true, true⟩).started = false := by
  have h := C5_filter_boot_shortcircuit ⟨true, false, true, true, true⟩
  exact ⟨h.2.2.2.2.2.1 rfl rfl, h.1.trans (by decide)⟩

/-- C1 counterexample: the claim says a failure of any of the loaders of
regions 2 through 13 or 15 prevents the ensemble from starting, but with
the region-2 bias loader reporting failure (and all other steps succeeding)
the ensemble c_main still reaches the timer setup and spin1_start, because
the results of the loaders of regions 2-5 are discarded. -/
theorem C1_load_failure_counterexample :
    (ensemble_c_main ⟨true, false, true, true, true, true, true, true, true,
      true, true, true, true, true⟩).started = true ∧
    (⟨true, false, true, true, true, true, true, true, true, true, true,
      true, true, true⟩ : EnsembleLoaders).data_get_bias = false := by
  decide

/-- C1 (amended): the ensemble boot aborts before the timer setup and
spin1_start exactly when one of the checked steps fails — the region-1
system load, the inhibitory-gain allocation (region 10), one of the three
filter/route pairs (regions 6/7, 8/9, 11/12), the PES load (region 13) or
the recording-buffer initialisation (region 15) — while the results of the
region 2-5 loaders (bias, encoders, decoders, output keys) are ignored and
never abort startup. -/
theorem C1_checked_loader_abort :
    ∀ L : EnsembleLoaders,
      ((ensemble_c_main L).started =
        (L.data_system && L.inhib_gain_malloc && L.get_filters_6 &&
         L.get_filter_routes_7 && L.get_filters_8 && L.get_filter_routes_9 &&
         L.get_filters_11 && L.get_filter_routes_12 && L.get_pes &&
         L.record_buffer_initialise)) ∧
      ((ensemble_c_main L).timer_set = (ensemble_c_main L).started) ∧
      ((ensemble_c_main L).failure_logged = !(ensemble_c_main L).started) := by
  intro L
  obtain ⟨a, b, c, d, e, f, g, h, i, j, k, l, m, o⟩ := L
  cases a <;> cases f <;> cases g <;> cases h <;> cases i <;> cases j <;>
    cases k <;> cases l <;> cases m <;> cases o <;> exact ⟨rfl, rfl, rfl⟩
